import Mathlib

/-
Verification of the pcap2socks protocol-layer codec
(src/packet/layer/ipv4.rs and src/packet/layer/tcp.rs).

The two source files delegate the byte-level work to the pnet packet
library (MutableIpv4Packet / MutableTcpPacket and their generated
setters, getters, populate, packet_size, checksum helpers).  The pnet
side is embedded here as well, in the namespace pnet, translated from
the generated pnet accessor code that the repository compiles against.

Conventions of the shallow embedding:
* A Rust byte slice is a Buf: an index-to-byte map plus the slice
  length.  Machine integers are Nat with explicit masks: a cast
  "as u8" is % 256, "as u16" truncation is % 65536, a shift x >> 8 is
  x / 256, a mask x & 0x0F is x % 16, x & 0xF0 is x / 16 * 16, and a
  bit-or of disjoint parts is +.
* A Rust panic (slice bound violation, failed assert!, unwrap of None)
  is the explicit outcome SerErr.panicked; io::Error results are the
  other SerErr constructors.  Nat subtraction is already saturating,
  matching the saturating_sub calls of the generated length functions.
-/

set_option maxHeartbeats 4000000

/-- Byte buffer modelling a Rust byte slice: an index-to-byte map together
with the slice length. -/
structure Buf where
  data : Nat → Nat
  len : Nat

/-- Read the byte at index i (Rust buf[i]; used in bounds). -/
def rd (b : Buf) (i : Nat) : Nat := b.data i

/-- Write the byte v at index i (Rust buf[i] = v).  All call sites are
guarded by the slice-length checks that the source performs. -/
def wr (b : Buf) (i v : Nat) : Buf := ⟨fun j => if j = i then v else b.data j, b.len⟩

/-- Copy a byte list starting at index i (copy_from_slice; the callers
check the bounds first, exactly as the generated pnet code does). -/
def copyAt : Buf → Nat → List Nat → Buf
  | b, _, [] => b
  | b, i, v :: vs => copyAt (wr b i v) (i + 1) vs

/-- The failure outcomes of serialize in the source: the io::Error values
io::ErrorKind::WriteZero "buffer too small", io::ErrorKind::Other
"IPv4 too big" / "TCP too big", io::ErrorKind::InvalidInput
"length too big", plus a Rust abort raised inside the pnet helpers
(slice bound or assert violation). -/
inductive SerErr where
  | bufferTooSmall
  | ipv4TooBig
  | tcpTooBig
  | lengthTooBig
  | panicked
deriving DecidableEq

namespace pnet

/-- std::net::Ipv4Addr, stored as its four octets. -/
structure Ipv4Addr where
  o0 : Nat
  o1 : Nat
  o2 : Nat
  o3 : Nat
deriving DecidableEq

/-- Display for Ipv4Addr: dotted decimal. -/
def Ipv4Addr.display (a : Ipv4Addr) : String :=
  toString a.o0 ++ "." ++ toString a.o1 ++ "." ++ toString a.o2 ++ "." ++ toString a.o3

/-- pnet ipv4::Ipv4Option record: copied (1 bit), class (2 bits),
number (5 bits), then a length vector (0 or 1 bytes on the wire) and a
data vector.  The Rust field name class is a Lean keyword and is
rendered cls here. -/
structure Ipv4Option where
  copied : Nat
  cls : Nat
  number : Nat
  length : List Nat
  data : List Nat
deriving DecidableEq

/-- pnet ipv4::Ipv4 header record (the layer field of the repository
Ipv4 wrapper). -/
structure Ipv4 where
  version : Nat
  header_length : Nat
  dscp : Nat
  ecn : Nat
  total_length : Nat
  identification : Nat
  flags : Nat
  fragment_offset : Nat
  ttl : Nat
  next_level_protocol : Nat
  checksum : Nat
  source : Ipv4Addr
  destination : Ipv4Addr
  options : List Ipv4Option
  payload : List Nat
deriving DecidableEq

/-- pnet tcp::TcpOption record: number (one byte), then a length vector
(0 or 1 bytes on the wire) and a data vector. -/
structure TcpOption where
  number : Nat
  length : List Nat
  data : List Nat
deriving DecidableEq

/-- pnet tcp::Tcp header record (the layer field of the repository Tcp
wrapper).  On the wire data_offset is a u4, reserved a u3 (bits 3 to 1
of byte 12) and flags a u9be whose ninth bit (NS) is bit 0 of byte 12;
their storage types are u8, u8 and u16. -/
structure Tcp where
  source : Nat
  destination : Nat
  sequence : Nat
  acknowledgement : Nat
  data_offset : Nat
  reserved : Nat
  flags : Nat
  window : Nat
  checksum : Nat
  urgent_ptr : Nat
  options : List TcpOption
  payload : List Nat
deriving DecidableEq

/-- pnet Ipv4Flags::MoreFragments (bit 0b001 of the 3-bit flags field). -/
def Ipv4Flags.MoreFragments : Nat := 1

/-- pnet Ipv4Flags::DontFragment (bit 0b010 of the 3-bit flags field). -/
def Ipv4Flags.DontFragment : Nat := 2

/-- pnet IpNextHeaderProtocols::Tcp. -/
def IpNextHeaderProtocols.Tcp : Nat := 6

/-- pnet IpNextHeaderProtocols::Udp. -/
def IpNextHeaderProtocols.Udp : Nat := 17

/-- pnet TcpFlags::FIN. -/
def TcpFlags.FIN : Nat := 1

/-- pnet TcpFlags::SYN. -/
def TcpFlags.SYN : Nat := 2

/-- pnet TcpFlags::RST. -/
def TcpFlags.RST : Nat := 4

/-- pnet TcpFlags::PSH. -/
def TcpFlags.PSH : Nat := 8

/-- pnet TcpFlags::ACK. -/
def TcpFlags.ACK : Nat := 16

/-- pnet TcpFlags::URG. -/
def TcpFlags.URG : Nat := 32

/-- pnet TcpFlags::ECE. -/
def TcpFlags.ECE : Nat := 64

/-- pnet TcpFlags::CWR. -/
def TcpFlags.CWR : Nat := 128

/-- pnet TcpFlags::NS (the ninth flag bit of the u9be flags field). -/
def TcpFlags.NS : Nat := 256

/-- One round of the carry fold of finalize_checksum; the u32 one's
complement accumulator needs at most two such rounds, so the Rust
while loop is unrolled twice (a no-op once the sum is below 2^16). -/
def carryRound (s : Nat) : Nat := s / 65536 + s % 65536

/-- pnet util finalize_checksum: fold the carries of the 32-bit
accumulator into the low 16 bits (two rounds suffice for any sum that
fits in a u32, and every sum reached here does), then complement. -/
def finalizeChecksum (s : Nat) : Nat := 65535 - carryRound (carryRound s)

/-- Sum of the first n big-endian 16-bit words of the buffer, skipping
the word with index skip (the checksum field itself). -/
def sumWords (b : Buf) (skip : Nat) : Nat → Nat
  | 0 => 0
  | i + 1 => sumWords b skip i + (if i = skip then 0 else rd b (2 * i) * 256 + rd b (2 * i + 1))

/-- pnet util sum_be_words: sum all big-endian 16-bit words of the
buffer except the word with index skip; a trailing odd byte counts as
the high byte of a final word. -/
def sumBeWords (b : Buf) (skip : Nat) : Nat :=
  sumWords b skip (b.len / 2) + (if b.len % 2 = 1 then rd b (b.len - 1) * 256 else 0)

/-- pnet util ipv4_word_sum: the two big-endian words of an address. -/
def ipv4WordSum (a : Ipv4Addr) : Nat := a.o0 * 256 + a.o1 + (a.o2 * 256 + a.o3)

/-- pnet util::ipv4_checksum with empty extra data: pseudo-header
(source, destination, protocol number, length of the data) plus the
data words, with the word at index skipword left out, folded and
complemented. -/
def utilIpv4Checksum (b : Buf) (skipword : Nat) (source destination : Ipv4Addr) (protocol : Nat) : Nat :=
  finalizeChecksum (ipv4WordSum source + ipv4WordSum destination + protocol + b.len + sumBeWords b skipword)

namespace Ipv4Packet

/-- MutableIpv4Packet::minimum_packet_size(). -/
def minimum_packet_size : Nat := 20

/-- Generated Ipv4Packet::packet_size(&Ipv4): 20 fixed bytes plus one
byte per option record plus the payload length (the element count of
the options vector, not the encoded option sizes; the repository
corrects for this in get_size). -/
def packet_size (l : Ipv4) : Nat := 20 + l.options.length + l.payload.length

/-- set_version: high nibble of byte 0. -/
def set_version (v : Nat) (b : Buf) : Buf := wr b 0 (rd b 0 % 16 + v % 16 * 16)

/-- set_header_length: low nibble of byte 0. -/
def set_header_length (v : Nat) (b : Buf) : Buf := wr b 0 (rd b 0 / 16 * 16 + v % 16)

/-- set_dscp: high six bits of byte 1. -/
def set_dscp (v : Nat) (b : Buf) : Buf := wr b 1 (rd b 1 % 4 + v % 64 * 4)

/-- set_ecn: low two bits of byte 1. -/
def set_ecn (v : Nat) (b : Buf) : Buf := wr b 1 (rd b 1 / 4 * 4 + v % 4)

/-- set_total_length: big-endian u16 at bytes 2 and 3. -/
def set_total_length (v : Nat) (b : Buf) : Buf := wr (wr b 2 (v / 256 % 256)) 3 (v % 256)

/-- set_identification: big-endian u16 at bytes 4 and 5. -/
def set_identification (v : Nat) (b : Buf) : Buf := wr (wr b 4 (v / 256 % 256)) 5 (v % 256)

/-- set_flags: high three bits of byte 6. -/
def set_flags (v : Nat) (b : Buf) : Buf := wr b 6 (rd b 6 % 32 + v % 8 * 32)

/-- set_fragment_offset: low five bits of byte 6 and all of byte 7
(13-bit big-endian field). -/
def set_fragment_offset (v : Nat) (b : Buf) : Buf :=
  wr (wr b 6 (rd b 6 / 32 * 32 + v / 256 % 32)) 7 (v % 256)

/-- set_ttl: byte 8. -/
def set_ttl (v : Nat) (b : Buf) : Buf := wr b 8 (v % 256)

/-- set_next_level_protocol: byte 9. -/
def set_next_level_protocol (v : Nat) (b : Buf) : Buf := wr b 9 (v % 256)

/-- set_checksum: big-endian u16 at bytes 10 and 11. -/
def set_checksum (v : Nat) (b : Buf) : Buf := wr (wr b 10 (v / 256 % 256)) 11 (v % 256)

/-- set_source: bytes 12 to 15. -/
def set_source (a : Ipv4Addr) (b : Buf) : Buf :=
  wr (wr (wr (wr b 12 (a.o0 % 256)) 13 (a.o1 % 256)) 14 (a.o2 % 256)) 15 (a.o3 % 256)

/-- set_destination: bytes 16 to 19. -/
def set_destination (a : Ipv4Addr) (b : Buf) : Buf :=
  wr (wr (wr (wr b 16 (a.o0 % 256)) 17 (a.o1 % 256)) 18 (a.o2 % 256)) 19 (a.o3 % 256)

/-- MutableIpv4OptionPacket populate on the slice [cur, endB) of the
main buffer (the caller established cur ≤ endB ≤ b.len): the three
masked writes of the first byte, then set_length and set_data with
their asserts and bound checks, following the generated length
functions ipv4_option_length (0 for numbers 0 and 1, else 1) and
ipv4_option_payload_length (first length byte minus 2).  Returns the
updated buffer together with the instance packet_size read back from
the written bytes; none is a Rust abort. -/
def populateOptionAt (b : Buf) (cur endB : Nat) (o : Ipv4Option) : Option (Buf × Nat) :=
  if endB - cur < 1 then none else
  let b := wr b cur (rd b cur % 128 + o.copied % 2 * 128)
  let b := wr b cur (rd b cur / 128 * 128 + rd b cur % 32 + o.cls % 4 * 32)
  let b := wr b cur (rd b cur / 32 * 32 + o.number % 32)
  let lenLen := if rd b cur % 32 = 0 ∨ rd b cur % 32 = 1 then 0 else 1
  if o.length.length > lenLen then none else
  if cur + 1 + o.length.length > endB then none else
  let b := copyAt b (cur + 1) o.length
  let dataLen := if lenLen = 1 ∧ cur + 2 ≤ endB then rd b (cur + 1) - 2 else 0
  if o.data.length > dataLen then none else
  if cur + 1 + lenLen + o.data.length > endB then none else
  some (copyAt b (cur + 1 + lenLen) o.data, 1 + lenLen + dataLen)

/-- The loop body of set_options: write each option into the region
[cur, endB), advancing by the written packet size; the slice taken at
each iteration and the assert after it turn into bound checks. -/
def setOptionsGo (endB : Nat) : Buf → Nat → List Ipv4Option → Option Buf
  | b, _, [] => some b
  | b, cur, o :: rest =>
      if cur ≤ endB ∧ endB ≤ b.len then
        match populateOptionAt b cur endB o with
        | none => none
        | some (b2, sz) => if cur + sz ≤ endB then setOptionsGo endB b2 (cur + sz) rest else none
      else none

/-- set_options: the option region starts at byte 20 and runs for
ipv4_options_length = header_length * 4 saturating-minus 20 bytes,
where header_length is the nibble currently in the buffer. -/
def set_options (opts : List Ipv4Option) (b : Buf) : Option Buf :=
  setOptionsGo (20 + (rd b 0 % 16 * 4 - 20)) b 20 opts

/-- set_payload: the payload region starts after the options and its
capacity is ipv4_payload_length = total_length saturating-minus
header_length * 4, both read back from the buffer; the assert and the
copy bound become the two checks. -/
def set_payload (vals : List Nat) (b : Buf) : Option Buf :=
  let hl := rd b 0 % 16
  let co := 20 + (hl * 4 - 20)
  let cap := rd b 2 * 256 + rd b 3 - hl * 4
  if vals.length > cap then none else
  if co + vals.length > b.len then none else
  some (copyAt b co vals)

/-- MutableIpv4Packet::populate: set every field in declaration order,
then the options and the payload (the only two steps that can abort). -/
def populate (l : Ipv4) (b : Buf) : Option Buf :=
  let b := set_version l.version b
  let b := set_header_length l.header_length b
  let b := set_dscp l.dscp b
  let b := set_ecn l.ecn b
  let b := set_total_length l.total_length b
  let b := set_identification l.identification b
  let b := set_flags l.flags b
  let b := set_fragment_offset l.fragment_offset b
  let b := set_ttl l.ttl b
  let b := set_next_level_protocol l.next_level_protocol b
  let b := set_checksum l.checksum b
  let b := set_source l.source b
  let b := set_destination l.destination b
  match set_options l.options b with
  | none => none
  | some b => set_payload l.payload b

/-- get_version. -/
def get_version (b : Buf) : Nat := rd b 0 / 16

/-- get_header_length. -/
def get_header_length (b : Buf) : Nat := rd b 0 % 16

/-- get_dscp. -/
def get_dscp (b : Buf) : Nat := rd b 1 / 4

/-- get_ecn. -/
def get_ecn (b : Buf) : Nat := rd b 1 % 4

/-- get_total_length. -/
def get_total_length (b : Buf) : Nat := rd b 2 * 256 + rd b 3

/-- get_identification. -/
def get_identification (b : Buf) : Nat := rd b 4 * 256 + rd b 5

/-- get_flags. -/
def get_flags (b : Buf) : Nat := rd b 6 / 32

/-- get_fragment_offset. -/
def get_fragment_offset (b : Buf) : Nat := rd b 6 % 32 * 256 + rd b 7

/-- get_ttl. -/
def get_ttl (b : Buf) : Nat := rd b 8

/-- get_next_level_protocol. -/
def get_next_level_protocol (b : Buf) : Nat := rd b 9

/-- get_checksum. -/
def get_checksum (b : Buf) : Nat := rd b 10 * 256 + rd b 11

/-- get_source. -/
def get_source (b : Buf) : Ipv4Addr := ⟨rd b 12, rd b 13, rd b 14, rd b 15⟩

/-- get_destination. -/
def get_destination (b : Buf) : Ipv4Addr := ⟨rd b 16, rd b 17, rd b 18, rd b 19⟩

/-- Read count bytes starting at index i. -/
def readRange (b : Buf) (i count : Nat) : List Nat :=
  (List.range count).map (fun k => rd b (i + k))

/-- The option iterator of get_options: read one option record at pos,
with the generated getters clamping their end offsets to the region
(cmp::min in the generated accessors), then advance by
min(packet_size, remaining).  The fuel starts at the region size and
dominates the iteration count, since each step advances by at least
one byte. -/
def parseOptionsGo (b : Buf) (endB : Nat) : Nat → Nat → List Ipv4Option
  | _, 0 => []
  | pos, fuel + 1 =>
    if pos < endB then
      let b0 := rd b pos
      let number := b0 % 32
      let lenLen := if number = 0 ∨ number = 1 then 0 else 1
      let lengthF := if lenLen = 1 ∧ pos + 2 ≤ endB then [rd b (pos + 1)] else []
      let dataLen := match lengthF with
        | [] => 0
        | x :: _ => x - 2
      let dataF := readRange b (pos + 1 + lenLen) (min (pos + 1 + lenLen + dataLen) endB - (pos + 1 + lenLen))
      let adv := min (1 + lenLen + dataLen) (endB - pos)
      ⟨b0 / 128, b0 / 32 % 4, number, lengthF, dataF⟩ :: parseOptionsGo b endB (pos + adv) fuel
    else []

/-- get_options: iterate the option region [20, 20 + options_length),
clamped to the buffer. -/
def get_options (b : Buf) : List Ipv4Option :=
  let endB := min (20 + (rd b 0 % 16 * 4 - 20)) b.len
  parseOptionsGo b endB 20 (endB - 20)

/-- pnet ipv4::checksum: the one's complement checksum of the header
region (header_length * 4 bytes, clamped between the minimum packet
size and the buffer length), with word 5 (the checksum field) skipped. -/
def checksum (b : Buf) : Nat :=
  let hl4 := rd b 0 % 16 * 4
  let headerLength := if hl4 < 20 then 20 else if hl4 > b.len then b.len else hl4
  finalizeChecksum (sumBeWords ⟨b.data, headerLength⟩ 5)

end Ipv4Packet

namespace TcpPacket

/-- MutableTcpPacket::minimum_packet_size(). -/
def minimum_packet_size : Nat := 20

/-- Generated TcpPacket::packet_size(&Tcp): 20 fixed bytes plus one
byte per option record plus the payload length (element count, not
encoded option sizes; the repository corrects for this in get_size). -/
def packet_size (l : Tcp) : Nat := 20 + l.options.length + l.payload.length

/-- set_source: big-endian u16 at bytes 0 and 1 (the source port). -/
def set_source (v : Nat) (b : Buf) : Buf := wr (wr b 0 (v / 256 % 256)) 1 (v % 256)

/-- set_destination: big-endian u16 at bytes 2 and 3. -/
def set_destination (v : Nat) (b : Buf) : Buf := wr (wr b 2 (v / 256 % 256)) 3 (v % 256)

/-- set_sequence: big-endian u32 at bytes 4 to 7. -/
def set_sequence (v : Nat) (b : Buf) : Buf :=
  wr (wr (wr (wr b 4 (v / 16777216 % 256)) 5 (v / 65536 % 256)) 6 (v / 256 % 256)) 7 (v % 256)

/-- set_acknowledgement: big-endian u32 at bytes 8 to 11. -/
def set_acknowledgement (v : Nat) (b : Buf) : Buf :=
  wr (wr (wr (wr b 8 (v / 16777216 % 256)) 9 (v / 65536 % 256)) 10 (v / 256 % 256)) 11 (v % 256)

/-- set_data_offset: high nibble of byte 12. -/
def set_data_offset (v : Nat) (b : Buf) : Buf := wr b 12 (rd b 12 % 16 + v % 16 * 16)

/-- set_reserved: the reserved field is a u3 occupying bits 3 to 1 of
byte 12 — packet[12] = (packet[12] & 0xF1) | ((val & 7) << 1), keeping
the data offset nibble and bit 0 (the NS flag bit). -/
def set_reserved (v : Nat) (b : Buf) : Buf :=
  wr b 12 (rd b 12 / 16 * 16 + rd b 12 % 2 + v % 8 * 2)

/-- set_flags: the flags field is a u9be — its high bit (NS) goes into
bit 0 of byte 12, packet[12] = (packet[12] & 0xFE) | ((val & 0x100) >> 8),
and the low eight bits into byte 13. -/
def set_flags (v : Nat) (b : Buf) : Buf :=
  wr (wr b 12 (rd b 12 / 2 * 2 + v / 256 % 2)) 13 (v % 256)

/-- set_window: big-endian u16 at bytes 14 and 15. -/
def set_window (v : Nat) (b : Buf) : Buf := wr (wr b 14 (v / 256 % 256)) 15 (v % 256)

/-- set_checksum: big-endian u16 at bytes 16 and 17. -/
def set_checksum (v : Nat) (b : Buf) : Buf := wr (wr b 16 (v / 256 % 256)) 17 (v % 256)

/-- set_urgent_ptr: big-endian u16 at bytes 18 and 19. -/
def set_urgent_ptr (v : Nat) (b : Buf) : Buf := wr (wr b 18 (v / 256 % 256)) 19 (v % 256)

/-- MutableTcpOptionPacket populate on the slice [cur, endB): write the
number byte, then set_length and set_data with their asserts and bound
checks, following tcp_option_length (0 for numbers 0 and 1, else 1)
and the payload length read from the first length byte minus 2.
Returns the buffer and the instance packet_size; none is a Rust
abort. -/
def populateOptionAt (b : Buf) (cur endB : Nat) (o : TcpOption) : Option (Buf × Nat) :=
  if endB - cur < 1 then none else
  let b := wr b cur (o.number % 256)
  let lenLen := if rd b cur = 0 ∨ rd b cur = 1 then 0 else 1
  if o.length.length > lenLen then none else
  if cur + 1 + o.length.length > endB then none else
  let b := copyAt b (cur + 1) o.length
  let dataLen := if lenLen = 1 ∧ cur + 2 ≤ endB then rd b (cur + 1) - 2 else 0
  if o.data.length > dataLen then none else
  if cur + 1 + lenLen + o.data.length > endB then none else
  some (copyAt b (cur + 1 + lenLen) o.data, 1 + lenLen + dataLen)

/-- The loop body of set_options for TCP. -/
def setOptionsGo (endB : Nat) : Buf → Nat → List TcpOption → Option Buf
  | b, _, [] => some b
  | b, cur, o :: rest =>
      if cur ≤ endB ∧ endB ≤ b.len then
        match populateOptionAt b cur endB o with
        | none => none
        | some (b2, sz) => if cur + sz ≤ endB then setOptionsGo endB b2 (cur + sz) rest else none
      else none

/-- set_options: the option region starts at byte 20 and runs for
tcp_options_length = data_offset * 4 saturating-minus 20 bytes, where
data_offset is the nibble currently in the buffer. -/
def set_options (opts : List TcpOption) (b : Buf) : Option Buf :=
  setOptionsGo (20 + (rd b 12 / 16 * 4 - 20)) b 20 opts

/-- set_payload: the TCP payload region runs from after the options to
the end of the buffer; vals.len() <= packet.len() - offset and the
copy bound collapse to the single check below (when the offset already
exceeds the buffer the Rust code aborts as well). -/
def set_payload (vals : List Nat) (b : Buf) : Option Buf :=
  let co := 20 + (rd b 12 / 16 * 4 - 20)
  if co + vals.length > b.len then none else
  some (copyAt b co vals)

/-- MutableTcpPacket::populate: set every field in declaration order,
then the options and the payload. -/
def populate (l : Tcp) (b : Buf) : Option Buf :=
  let b := set_source l.source b
  let b := set_destination l.destination b
  let b := set_sequence l.sequence b
  let b := set_acknowledgement l.acknowledgement b
  let b := set_data_offset l.data_offset b
  let b := set_reserved l.reserved b
  let b := set_flags l.flags b
  let b := set_window l.window b
  let b := set_checksum l.checksum b
  let b := set_urgent_ptr l.urgent_ptr b
  match set_options l.options b with
  | none => none
  | some b => set_payload l.payload b

/-- get_source (the source port). -/
def get_source (b : Buf) : Nat := rd b 0 * 256 + rd b 1

/-- get_destination. -/
def get_destination (b : Buf) : Nat := rd b 2 * 256 + rd b 3

/-- get_sequence. -/
def get_sequence (b : Buf) : Nat :=
  rd b 4 * 16777216 + rd b 5 * 65536 + rd b 6 * 256 + rd b 7

/-- get_acknowledgement. -/
def get_acknowledgement (b : Buf) : Nat :=
  rd b 8 * 16777216 + rd b 9 * 65536 + rd b 10 * 256 + rd b 11

/-- get_data_offset. -/
def get_data_offset (b : Buf) : Nat := rd b 12 / 16

/-- get_reserved: bits 3 to 1 of byte 12, (b12 & 0x0E) >> 1. -/
def get_reserved (b : Buf) : Nat := rd b 12 % 16 / 2

/-- get_flags: the 9-bit flags value ((b12 & 1) << 8) | b13, with the
NS bit read back from bit 0 of byte 12. -/
def get_flags (b : Buf) : Nat := rd b 12 % 2 * 256 + rd b 13

/-- get_window. -/
def get_window (b : Buf) : Nat := rd b 14 * 256 + rd b 15

/-- get_checksum. -/
def get_checksum (b : Buf) : Nat := rd b 16 * 256 + rd b 17

/-- get_urgent_ptr. -/
def get_urgent_ptr (b : Buf) : Nat := rd b 18 * 256 + rd b 19

/-- The option iterator of get_options for TCP, with the generated
getters clamping their end offsets to the region. -/
def parseOptionsGo (b : Buf) (endB : Nat) : Nat → Nat → List TcpOption
  | _, 0 => []
  | pos, fuel + 1 =>
    if pos < endB then
      let number := rd b pos
      let lenLen := if number = 0 ∨ number = 1 then 0 else 1
      let lengthF := if lenLen = 1 ∧ pos + 2 ≤ endB then [rd b (pos + 1)] else []
      let dataLen := match lengthF with
        | [] => 0
        | x :: _ => x - 2
      let dataF := Ipv4Packet.readRange b (pos + 1 + lenLen)
        (min (pos + 1 + lenLen + dataLen) endB - (pos + 1 + lenLen))
      let adv := min (1 + lenLen + dataLen) (endB - pos)
      ⟨number, lengthF, dataF⟩ :: parseOptionsGo b endB (pos + adv) fuel
    else []

/-- get_options: iterate the option region [20, 20 + options_length),
clamped to the buffer. -/
def get_options (b : Buf) : List TcpOption :=
  let endB := min (20 + (rd b 12 / 16 * 4 - 20)) b.len
  parseOptionsGo b endB 20 (endB - 20)

/-- pnet tcp::ipv4_checksum: util::ipv4_checksum over the whole packet
buffer with skipword 8 (the checksum field), protocol number 6, and no
extra data — the pseudo-header length term is the full buffer length. -/
def ipv4_checksum (b : Buf) (source destination : Ipv4Addr) : Nat :=
  utilIpv4Checksum b 8 source destination IpNextHeaderProtocols.Tcp

end TcpPacket

end pnet

/-- Modelled from the spec: the protocol tag enumeration (LayerTypes)
lives in packet/layer/mod.rs, which is not among the provided sources;
the spec describes a closed set of protocol identifiers containing at
least IPv4, TCP and UDP, used for dispatch and display. -/
inductive LayerType where
  | Ipv4
  | Tcp
  | Udp
deriving DecidableEq

/-- Modelled from the spec: the display name carried by each protocol
tag (the spec shows the renderings "IPv4: ..." and "TCP: ..."). -/
def layerTypeName : LayerType → String
  | .Ipv4 => "IPv4"
  | .Tcp => "TCP"
  | .Udp => "UDP"

/-- The repository Ipv4 layer: a wrapper around the pnet header record. -/
structure Ipv4 where
  layer : pnet.Ipv4
deriving DecidableEq

/-- Ipv4::new: a non-fragmented, option-free header with version 4,
header length 5 words, TTL 128 and a pending checksum; None when the
upper protocol is neither TCP nor UDP. -/
def Ipv4.new (identification : Nat) (t : LayerType) (src dst : pnet.Ipv4Addr) : Option Ipv4 :=
  let next_level_protocol? : Option Nat :=
    match t with
    | .Tcp => some pnet.IpNextHeaderProtocols.Tcp
    | .Udp => some pnet.IpNextHeaderProtocols.Udp
    | _ => none
  match next_level_protocol? with
  | none => none
  | some next_level_protocol =>
    some ⟨{
      version := 4,
      header_length := 5,
      dscp := 0,
      ecn := 0,
      total_length := 0,
      identification := identification,
      flags := 0,
      fragment_offset := 0,
      ttl := 128,
      next_level_protocol := next_level_protocol,
      checksum := 0,
      source := src,
      destination := dst,
      options := [],
      payload := [] }⟩

/-- Ipv4::new_more_fragment: as new, then the MoreFragments flag and the
given offset. -/
def Ipv4.new_more_fragment (identification : Nat) (t : LayerType) (fragment_offset : Nat)
    (src dst : pnet.Ipv4Addr) : Option Ipv4 :=
  match Ipv4.new identification t src dst with
  | some ipv4 =>
      some ⟨{ ipv4.layer with
                flags := (pnet.Ipv4Flags.MoreFragments),
                fragment_offset := fragment_offset }⟩
  | none => none

/-- Ipv4::new_last_fragment: as new, then only the offset (flags left
clear). -/
def Ipv4.new_last_fragment (identification : Nat) (t : LayerType) (fragment_offset : Nat)
    (src dst : pnet.Ipv4Addr) : Option Ipv4 :=
  match Ipv4.new identification t src dst with
  | some ipv4 => some ⟨{ ipv4.layer with fragment_offset := fragment_offset }⟩
  | none => none

/-- Ipv4::parse: extract every wire field from a captured packet view;
the payload field is left empty. -/
def Ipv4.parse (packet : Buf) : Ipv4 :=
  ⟨{
     version := pnet.Ipv4Packet.get_version packet,
     header_length := pnet.Ipv4Packet.get_header_length packet,
     dscp := pnet.Ipv4Packet.get_dscp packet,
     ecn := pnet.Ipv4Packet.get_ecn packet,
     total_length := pnet.Ipv4Packet.get_total_length packet,
     identification := pnet.Ipv4Packet.get_identification packet,
     flags := pnet.Ipv4Packet.get_flags packet,
     fragment_offset := pnet.Ipv4Packet.get_fragment_offset packet,
     ttl := pnet.Ipv4Packet.get_ttl packet,
     next_level_protocol := pnet.Ipv4Packet.get_next_level_protocol packet,
     checksum := pnet.Ipv4Packet.get_checksum packet,
     source := pnet.Ipv4Packet.get_source packet,
     destination := pnet.Ipv4Packet.get_destination packet,
     options := pnet.Ipv4Packet.get_options packet,
     payload := [] }⟩

/-- Ipv4::get_total_length. -/
def Ipv4.get_total_length (v : Ipv4) : Nat := v.layer.total_length

/-- Ipv4::get_identification. -/
def Ipv4.get_identification (v : Ipv4) : Nat := v.layer.identification

/-- Ipv4::is_more_fragment: flags & MoreFragments != 0. -/
def Ipv4.is_more_fragment (v : Ipv4) : Bool :=
  v.layer.flags &&& pnet.Ipv4Flags.MoreFragments != 0

/-- Ipv4::get_fragment_offset. -/
def Ipv4.get_fragment_offset (v : Ipv4) : Nat := v.layer.fragment_offset

/-- Ipv4::is_fragment: more fragments follow, or the offset is
positive. -/
def Ipv4.is_fragment (v : Ipv4) : Bool :=
  v.is_more_fragment || decide (0 < v.get_fragment_offset)

/-- Ipv4::get_src. -/
def Ipv4.get_src (v : Ipv4) : pnet.Ipv4Addr := v.layer.source

/-- Ipv4::get_dst. -/
def Ipv4.get_dst (v : Ipv4) : pnet.Ipv4Addr := v.layer.destination

/-- Ipv4::defrag: copy the header, clearing the fragmentation flags and
offset and the checksum, with an empty payload. -/
def Ipv4.defrag (ipv4 : Ipv4) : Ipv4 :=
  ⟨{
     version := ipv4.layer.version,
     header_length := ipv4.layer.header_length,
     dscp := ipv4.layer.dscp,
     ecn := ipv4.layer.ecn,
     total_length := ipv4.layer.total_length,
     identification := ipv4.get_identification,
     flags := 0,
     fragment_offset := 0,
     ttl := ipv4.layer.ttl,
     next_level_protocol := ipv4.layer.next_level_protocol,
     checksum := 0,
     source := ipv4.get_src,
     destination := ipv4.get_dst,
     options := ipv4.layer.options,
     payload := [] }⟩

/-- The Display implementation for Ipv4:
"IPv4: src -> dst, Length = N" with ", Fragment = offset*8" appended
when the value is a fragment.  The offset is a u16 in the source, so
the Rust release-mode multiplication wraps modulo 2^16. -/
def Ipv4.display (v : Ipv4) : String :=
  let fragment :=
    if v.is_fragment then ", Fragment = " ++ toString (v.get_fragment_offset * 8 % 65536) else ""
  layerTypeName .Ipv4 ++ ": " ++ v.layer.source.display ++ " -> " ++ v.layer.destination.display ++
    ", Length = " ++ toString v.layer.total_length ++ fragment

/-- Layer::get_size for Ipv4: packet_size, minus one byte per option,
plus each option record packet size (the loop of the source, folded
with its two accumulators). -/
def Ipv4.get_size (v : Ipv4) : Nat :=
  let start := (pnet.Ipv4Packet.packet_size v.layer, 0)
  let folded := v.layer.options.foldl
    (fun acc o => (acc.1 - 1, acc.2 + (1 + o.length.length + o.data.length))) start
  folded.1 + folded.2

/-- Layer::serialize for Ipv4: construct the mutable packet (buffer too
small when under the 20-byte minimum), populate, recompute the header
length in words from get_size (failing when the u8 cast would
overflow), write the caller-supplied total length (failing above
65535), then compute and write the header checksum; returns the final
buffer and the header byte count. -/
def Ipv4.serialize (v : Ipv4) (buffer : Buf) (n : Nat) : Except SerErr (Buf × Nat) :=
  if buffer.len < pnet.Ipv4Packet.minimum_packet_size then .error .bufferTooSmall else
  match pnet.Ipv4Packet.populate v.layer buffer with
  | none => .error .panicked
  | some b =>
    let header_length := v.get_size
    if header_length / 4 > 255 then .error .ipv4TooBig else
    let b := pnet.Ipv4Packet.set_header_length (header_length / 4 % 256) b
    if n > 65535 then .error .lengthTooBig else
    let b := pnet.Ipv4Packet.set_total_length n b
    let c := pnet.Ipv4Packet.checksum b
    .ok (pnet.Ipv4Packet.set_checksum c b, header_length)

/-- Layer::serialize_with_payload for Ipv4 ignores the payload argument
and calls serialize. -/
def Ipv4.serialize_with_payload (v : Ipv4) (buffer : Buf) (_payload : List Nat) (n : Nat) :
    Except SerErr (Buf × Nat) :=
  v.serialize buffer n

/-- The Rust type invariants of the Ipv4 record (u8 and u16 storage
widths, octet-valued addresses, byte-valued vectors). -/
def pnet.Ipv4Addr.wf (a : pnet.Ipv4Addr) : Prop :=
  a.o0 < 256 ∧ a.o1 < 256 ∧ a.o2 < 256 ∧ a.o3 < 256

/-- Rust type invariant of an option record (u8 fields, byte vectors). -/
def pnet.Ipv4Option.wf (o : pnet.Ipv4Option) : Prop :=
  o.copied < 256 ∧ o.cls < 256 ∧ o.number < 256 ∧
  (∀ x ∈ o.length, x < 256) ∧ (∀ x ∈ o.data, x < 256)

/-- Rust type invariant of the wrapped Ipv4 header record. -/
def Ipv4.wf (v : Ipv4) : Prop :=
  v.layer.version < 256 ∧ v.layer.header_length < 256 ∧ v.layer.dscp < 256 ∧
  v.layer.ecn < 256 ∧ v.layer.total_length < 65536 ∧ v.layer.identification < 65536 ∧
  v.layer.flags < 256 ∧ v.layer.fragment_offset < 65536 ∧ v.layer.ttl < 256 ∧
  v.layer.next_level_protocol < 256 ∧ v.layer.checksum < 65536 ∧
  v.layer.source.wf ∧ v.layer.destination.wf ∧
  (∀ o ∈ v.layer.options, o.wf) ∧ (∀ x ∈ v.layer.payload, x < 256)

/-- The repository Tcp layer: the pnet header record plus the IPv4
address pair the segment rides over. -/
structure Tcp where
  layer : pnet.Tcp
  src : pnet.Ipv4Addr
  dst : pnet.Ipv4Addr
deriving DecidableEq

/-- Tcp::new_ack: the base constructor — ACK flag only, 20-byte header,
checksum pending. -/
def Tcp.new_ack (src_ip_addr dst_ip_addr : pnet.Ipv4Addr) (src dst sequence acknowledgement window : Nat) : Tcp :=
  { layer := {
      source := src,
      destination := dst,
      sequence := sequence,
      acknowledgement := acknowledgement,
      data_offset := 5,
      reserved := 0,
      flags := (pnet.TcpFlags.ACK),
      window := window,
      checksum := 0,
      urgent_ptr := 0,
      options := [],
      payload := [] },
    src := src_ip_addr,
    dst := dst_ip_addr }

/-- Tcp::new_ack_syn: new_ack, then SYN or-ed in. -/
def Tcp.new_ack_syn (src_ip_addr dst_ip_addr : pnet.Ipv4Addr) (src dst sequence acknowledgement window : Nat) : Tcp :=
  let tcp := Tcp.new_ack src_ip_addr dst_ip_addr src dst sequence acknowledgement window
  { tcp with layer := { tcp.layer with flags := tcp.layer.flags ||| pnet.TcpFlags.SYN } }

/-- Tcp::new_rst: new_ack, then the flags overwritten to RST alone. -/
def Tcp.new_rst (src_ip_addr dst_ip_addr : pnet.Ipv4Addr) (src dst sequence acknowledgement window : Nat) : Tcp :=
  let tcp := Tcp.new_ack src_ip_addr dst_ip_addr src dst sequence acknowledgement window
  { tcp with layer := { tcp.layer with flags := (pnet.TcpFlags.RST) } }

/-- Tcp::new_ack_rst: new_rst, then ACK or-ed back in. -/
def Tcp.new_ack_rst (src_ip_addr dst_ip_addr : pnet.Ipv4Addr) (src dst sequence acknowledgement window : Nat) : Tcp :=
  let tcp := Tcp.new_rst src_ip_addr dst_ip_addr src dst sequence acknowledgement window
  { tcp with layer := { tcp.layer with flags := tcp.layer.flags ||| pnet.TcpFlags.ACK } }

/-- Tcp::new_ack_fin: new_ack, then FIN or-ed in. -/
def Tcp.new_ack_fin (src_ip_addr dst_ip_addr : pnet.Ipv4Addr) (src dst sequence acknowledgement window : Nat) : Tcp :=
  let tcp := Tcp.new_ack src_ip_addr dst_ip_addr src dst sequence acknowledgement window
  { tcp with layer := { tcp.layer with flags := tcp.layer.flags ||| pnet.TcpFlags.FIN } }

/-- Tcp::parse: extract the TCP wire fields from a captured view; the
caller supplies the IPv4 endpoints; the payload field is left empty. -/
def Tcp.parse (packet : Buf) (src dst : pnet.Ipv4Addr) : Tcp :=
  { layer := {
      source := pnet.TcpPacket.get_source packet,
      destination := pnet.TcpPacket.get_destination packet,
      sequence := pnet.TcpPacket.get_sequence packet,
      acknowledgement := pnet.TcpPacket.get_acknowledgement packet,
      data_offset := pnet.TcpPacket.get_data_offset packet,
      reserved := pnet.TcpPacket.get_reserved packet,
      flags := pnet.TcpPacket.get_flags packet,
      window := pnet.TcpPacket.get_window packet,
      checksum := pnet.TcpPacket.get_checksum packet,
      urgent_ptr := pnet.TcpPacket.get_urgent_ptr packet,
      options := pnet.TcpPacket.get_options packet,
      payload := [] },
    src := src,
    dst := dst }

/-- Tcp::get_src_ip_addr. -/
def Tcp.get_src_ip_addr (t : Tcp) : pnet.Ipv4Addr := t.src

/-- Tcp::get_dst_ip_addr. -/
def Tcp.get_dst_ip_addr (t : Tcp) : pnet.Ipv4Addr := t.dst

/-- Tcp::get_src (the source port). -/
def Tcp.get_src (t : Tcp) : Nat := t.layer.source

/-- Tcp::get_dst. -/
def Tcp.get_dst (t : Tcp) : Nat := t.layer.destination

/-- Tcp::get_sequence. -/
def Tcp.get_sequence (t : Tcp) : Nat := t.layer.sequence

/-- Tcp::get_acknowledgement. -/
def Tcp.get_acknowledgement (t : Tcp) : Nat := t.layer.acknowledgement

/-- Tcp::get_window. -/
def Tcp.get_window (t : Tcp) : Nat := t.layer.window

/-- Tcp::is_ack. -/
def Tcp.is_ack (t : Tcp) : Bool := t.layer.flags &&& pnet.TcpFlags.ACK != 0

/-- Tcp::is_rst. -/
def Tcp.is_rst (t : Tcp) : Bool := t.layer.flags &&& pnet.TcpFlags.RST != 0

/-- Tcp::is_syn. -/
def Tcp.is_syn (t : Tcp) : Bool := t.layer.flags &&& pnet.TcpFlags.SYN != 0

/-- Tcp::is_fin. -/
def Tcp.is_fin (t : Tcp) : Bool := t.layer.flags &&& pnet.TcpFlags.FIN != 0

/-- Tcp::is_ack_fin. -/
def Tcp.is_ack_fin (t : Tcp) : Bool := t.is_ack && t.is_fin

/-- Tcp::is_rst_or_fin. -/
def Tcp.is_rst_or_fin (t : Tcp) : Bool := t.is_rst || t.is_fin

/-- Tcp::is_zero_window. -/
def Tcp.is_zero_window (t : Tcp) : Bool := t.layer.window == 0

/-- Layer::get_size for Tcp: packet_size, minus one byte per option,
plus each option record packet size. -/
def Tcp.get_size (t : Tcp) : Nat :=
  let start := (pnet.TcpPacket.packet_size t.layer, 0)
  let folded := t.layer.options.foldl
    (fun acc o => (acc.1 - 1, acc.2 + (1 + o.length.length + o.data.length))) start
  folded.1 + folded.2

/-- Layer::serialize for Tcp (the total length argument is ignored by
this implementation): construct the mutable packet, populate,
recompute the data offset in words from get_size (failing when the u8
cast would overflow), then compute and write the pseudo-header
checksum over the whole buffer; returns the final buffer and the
header byte count. -/
def Tcp.serialize (t : Tcp) (buffer : Buf) (_n : Nat) : Except SerErr (Buf × Nat) :=
  if buffer.len < pnet.TcpPacket.minimum_packet_size then .error .bufferTooSmall else
  match pnet.TcpPacket.populate t.layer buffer with
  | none => .error .panicked
  | some b =>
    let header_length := t.get_size
    if header_length / 4 > 255 then .error .tcpTooBig else
    let b := pnet.TcpPacket.set_data_offset (header_length / 4 % 256) b
    let c := pnet.TcpPacket.ipv4_checksum b t.get_src_ip_addr t.get_dst_ip_addr
    .ok (pnet.TcpPacket.set_checksum c b, header_length)

/-- Layer::serialize_with_payload for Tcp: as serialize, but the
payload bytes are copied in after populate, and the returned count is
the header byte count plus the caller-supplied n. -/
def Tcp.serialize_with_payload (t : Tcp) (buffer : Buf) (payload : List Nat) (n : Nat) :
    Except SerErr (Buf × Nat) :=
  if buffer.len < pnet.TcpPacket.minimum_packet_size then .error .bufferTooSmall else
  match pnet.TcpPacket.populate t.layer buffer with
  | none => .error .panicked
  | some b =>
    match pnet.TcpPacket.set_payload payload b with
    | none => .error .panicked
    | some b =>
      let header_length := t.get_size
      if header_length / 4 > 255 then .error .tcpTooBig else
      let b := pnet.TcpPacket.set_data_offset (header_length / 4 % 256) b
      let c := pnet.TcpPacket.ipv4_checksum b t.get_src_ip_addr t.get_dst_ip_addr
      .ok (pnet.TcpPacket.set_checksum c b, header_length + n)

/-- Rust type invariant of a TCP option record. -/
def pnet.TcpOption.wf (o : pnet.TcpOption) : Prop :=
  o.number < 256 ∧ (∀ x ∈ o.length, x < 256) ∧ (∀ x ∈ o.data, x < 256)

/-- Rust type invariant of the wrapped Tcp record. -/
def Tcp.wf (t : Tcp) : Prop :=
  t.layer.source < 65536 ∧ t.layer.destination < 65536 ∧
  t.layer.sequence < 4294967296 ∧ t.layer.acknowledgement < 4294967296 ∧
  t.layer.data_offset < 256 ∧ t.layer.reserved < 256 ∧ t.layer.flags < 65536 ∧
  t.layer.window < 65536 ∧ t.layer.checksum < 65536 ∧ t.layer.urgent_ptr < 65536 ∧
  (∀ o ∈ t.layer.options, o.wf) ∧ (∀ x ∈ t.layer.payload, x < 256) ∧
  t.src.wf ∧ t.dst.wf

instance (a : pnet.Ipv4Addr) : Decidable a.wf := by
  unfold pnet.Ipv4Addr.wf
  infer_instance

instance (o : pnet.Ipv4Option) : Decidable o.wf := by
  unfold pnet.Ipv4Option.wf
  infer_instance

instance (v : Ipv4) : Decidable v.wf := by
  unfold Ipv4.wf
  infer_instance

instance (o : pnet.TcpOption) : Decidable o.wf := by
  unfold pnet.TcpOption.wf
  infer_instance

instance (t : Tcp) : Decidable t.wf := by
  unfold Tcp.wf
  infer_instance

/-- The 20 header bytes that the no-payload TCP serialize writes for an
option-free, payload-free value, after the data offset fix and before
the checksum write (the checksum bytes 16 and 17 still hold the stored
checksum field, which the checksum computation skips). -/
def tcpPreByte (t : Tcp) (j : Nat) : Nat :=
  if j = 0 then t.layer.source / 256 % 256 else
  if j = 1 then t.layer.source % 256 else
  if j = 2 then t.layer.destination / 256 % 256 else
  if j = 3 then t.layer.destination % 256 else
  if j = 4 then t.layer.sequence / 16777216 % 256 else
  if j = 5 then t.layer.sequence / 65536 % 256 else
  if j = 6 then t.layer.sequence / 256 % 256 else
  if j = 7 then t.layer.sequence % 256 else
  if j = 8 then t.layer.acknowledgement / 16777216 % 256 else
  if j = 9 then t.layer.acknowledgement / 65536 % 256 else
  if j = 10 then t.layer.acknowledgement / 256 % 256 else
  if j = 11 then t.layer.acknowledgement % 256 else
  if j = 12 then t.layer.reserved % 8 * 2 + t.layer.flags / 256 % 2 + 5 * 16 else
  if j = 13 then t.layer.flags % 256 else
  if j = 14 then t.layer.window / 256 % 256 else
  if j = 15 then t.layer.window % 256 else
  if j = 16 then t.layer.checksum / 256 % 256 else
  if j = 17 then t.layer.checksum % 256 else
  if j = 18 then t.layer.urgent_ptr / 256 % 256 else
  if j = 19 then t.layer.urgent_ptr % 256 else 0

/-- The 20-byte header buffer written for an option-free, payload-free
TCP value. -/
def tcpHeaderBuf (t : Tcp) : Buf := ⟨tcpPreByte t, 20⟩

/-- The bytes written by MutableTcpPacket::populate alone (before the
data offset fix): as tcpPreByte, except that byte 12 still carries the
stored data offset nibble. -/
def tcpPopByte (l : pnet.Tcp) (j : Nat) : Nat :=
  if j = 0 then l.source / 256 % 256 else
  if j = 1 then l.source % 256 else
  if j = 2 then l.destination / 256 % 256 else
  if j = 3 then l.destination % 256 else
  if j = 4 then l.sequence / 16777216 % 256 else
  if j = 5 then l.sequence / 65536 % 256 else
  if j = 6 then l.sequence / 256 % 256 else
  if j = 7 then l.sequence % 256 else
  if j = 8 then l.acknowledgement / 16777216 % 256 else
  if j = 9 then l.acknowledgement / 65536 % 256 else
  if j = 10 then l.acknowledgement / 256 % 256 else
  if j = 11 then l.acknowledgement % 256 else
  if j = 12 then l.data_offset % 16 * 16 + l.reserved % 8 * 2 + l.flags / 256 % 2 else
  if j = 13 then l.flags % 256 else
  if j = 14 then l.window / 256 % 256 else
  if j = 15 then l.window % 256 else
  if j = 16 then l.checksum / 256 % 256 else
  if j = 17 then l.checksum % 256 else
  if j = 18 then l.urgent_ptr / 256 % 256 else
  if j = 19 then l.urgent_ptr % 256 else 0

/-- The buffer produced by a successful MutableTcpPacket::populate of
an option-free, payload-free record: the 20 header bytes written, the
tail left as it was. -/
def tcpPopBuf (l : pnet.Tcp) (b : Buf) : Buf :=
  ⟨fun j => if j < 20 then tcpPopByte l j else b.data j, b.len⟩

/-- The pseudo-header checksum of the header bytes alone: source
address, destination address, protocol number 6 and segment length 20,
followed by the 20 header bytes with the checksum word skipped — the
checksum of a segment that carries no payload. -/
def tcpChecksumNoPayload (t : Tcp) : Nat :=
  pnet.TcpPacket.ipv4_checksum (tcpHeaderBuf t) t.src t.dst

/-- Concrete address 10.0.0.1 used by the concrete-value checks. -/
def addrA : pnet.Ipv4Addr := ⟨10, 0, 0, 1⟩

/-- Concrete address 10.0.0.2 used by the concrete-value checks. -/
def addrB : pnet.Ipv4Addr := ⟨10, 0, 0, 2⟩

/-- An all-zero buffer of the given length. -/
def zbuf (n : Nat) : Buf := ⟨fun _ => 0, n⟩

/-- A fallback Ipv4 value (all fields zero) for Option.getD. -/
def ipv4Zero : Ipv4 :=
  ⟨{
    version := 0,
    header_length := 0,
    dscp := 0,
    ecn := 0,
    total_length := 0,
    identification := 0,
    flags := 0,
    fragment_offset := 0,
    ttl := 0,
    next_level_protocol := 0,
    checksum := 0,
    source := addrA,
    destination := addrB,
    options := [],
    payload := [] }⟩

/-- The concrete header built by Ipv4::new(1, Tcp, 10.0.0.1, 10.0.0.2). -/
def ipv4Base : Ipv4 := (Ipv4.new 1 .Tcp addrA addrB).getD ipv4Zero

/-- The concrete segment built by Tcp::new_ack_syn over 10.0.0.1 ->
10.0.0.2, ports 1234 -> 80, sequence 1000, acknowledgement 0, window
65535. -/
def tcpAckSyn : Tcp := Tcp.new_ack_syn addrA addrB 1234 80 1000 0 65535

/-- ipv4Base with the storage-only flags value 8 (above the 3-bit wire
field), used against claim C1. -/
def c1flags8val : Ipv4 := ⟨{ ipv4Base.layer with flags := 8 }⟩

/-- The serialized bytes of ipv4Base (witness input for claim C1). -/
def c1out : Buf :=
  match Ipv4.serialize ipv4Base (zbuf 20) 20 with
  | .ok p => p.1
  | .error _ => zbuf 20

/-- The returned count of the same call (witness input for claim C1). -/
def c1k : Nat :=
  match Ipv4.serialize ipv4Base (zbuf 20) 20 with
  | .ok p => p.2
  | .error _ => 0

/-- The serialized bytes of tcpAckSyn (witness input for claim C1). -/
def c1tcpOut : Buf :=
  match Tcp.serialize tcpAckSyn (zbuf 20) 0 with
  | .ok p => p.1
  | .error _ => zbuf 20

/-- The returned count of the same call (witness input for claim C1). -/
def c1tcpK : Nat :=
  match Tcp.serialize tcpAckSyn (zbuf 20) 0 with
  | .ok p => p.2
  | .error _ => 0

/-- ipv4Base carrying a single one-byte NOP option record (number 1, no
length or data bytes), used against claim C3: get_size is 21 while the
fixed minimum enforced by the buffer check stays 20. -/
def c3val : Ipv4 := ⟨{ ipv4Base.layer with options := [⟨0, 0, 1, [], []⟩] }⟩

/-- ipv4Base with a 44-byte payload record and total_length 64, used
against claim C4: get_size is 64, so get_size / 4 = 16 overflows the
4-bit wire field yet stays far under the 255 bound the code checks. -/
def c4val : Ipv4 :=
  ⟨{ ipv4Base.layer with total_length := 64, payload := List.replicate 44 9 }⟩

/-- The count returned by serialize_with_payload of tcpAckSyn with a
3-byte payload and total length argument 7 (witness input for claim
C5). -/
def c5k : Nat :=
  match Tcp.serialize_with_payload tcpAckSyn (zbuf 40) [1, 2, 3] 7 with
  | .ok p => p.2
  | .error _ => 0

/-- The buffer returned by the same call (witness input for claim C5). -/
def c5out : Buf :=
  match Tcp.serialize_with_payload tcpAckSyn (zbuf 40) [1, 2, 3] 7 with
  | .ok p => p.1
  | .error _ => zbuf 40

/-- The fragment built by Ipv4::new_more_fragment with offset 2 (claim
C7 and C9 witnesses). -/
def c7mval : Ipv4 := (Ipv4.new_more_fragment 7 .Tcp 2 addrA addrB).getD ipv4Zero

/-- The fragment built by Ipv4::new_last_fragment with offset 3 (claim
C7 witness). -/
def c7lval : Ipv4 := (Ipv4.new_last_fragment 7 .Tcp 3 addrA addrB).getD ipv4Zero

/-- The fragment built by Ipv4::new_more_fragment with the 16-bit
offset 8192, whose displayed byte offset 8192 * 8 = 65536 wraps to 0 in
the u16 multiplication (used against claim C9). -/
def c9val : Ipv4 := (Ipv4.new_more_fragment 1 .Tcp 8192 addrA addrB).getD ipv4Zero

/-- Reading after a single write: the written byte at the written
index, the old byte elsewhere. -/
@[simp]
theorem rd_wr (b : Buf) (i v j : Nat) : rd (wr b i v) j = if j = i then v else rd b j := rfl

/-- A write never changes the buffer length. -/
@[simp]
theorem len_wr (b : Buf) (i v : Nat) : (wr b i v).len = b.len := rfl

/-- A block copy never changes the buffer length. -/
@[simp]
theorem len_copyAt (vs : List Nat) : ∀ (b : Buf) (i : Nat), (copyAt b i vs).len = b.len := by
  induction vs with
  | nil => intro b i; rfl
  | cons v vs ih => intro b i; simpa [copyAt] using ih (wr b i v) (i + 1)

/-- A block copy starting at index i leaves every byte below i
unchanged. -/
theorem rd_copyAt_lt (vs : List Nat) : ∀ (b : Buf) (i j : Nat), j < i →
    rd (copyAt b i vs) j = rd b j := by
  induction vs with
  | nil => intro b i j _; rfl
  | cons v vs ih =>
      intro b i j hj
      have h1 := ih (wr b i v) (i + 1) j (by omega)
      simp only [copyAt, h1, rd_wr]
      exact if_neg (by omega)

/-- A block copy starting at or after index 20 leaves the fixed header
bytes unchanged (the payload and option regions all start at 20 plus a
saturating difference). -/
@[simp]
theorem rd_copyAt_20 (b : Buf) (vs : List Nat) (x j : Nat) (h : j < 20) :
    rd (copyAt b (20 + x) vs) j = rd b j :=
  rd_copyAt_lt vs b (20 + x) j (by omega)

/-- Claim C2: each TCP constructor produces exactly the specified flag
combination — new_ack_syn sets ACK and SYN with RST clear; new_rst
overwrites the flags to RST alone, clearing ACK; new_ack_rst carries
both RST and ACK; new_ack_fin carries both ACK and FIN. -/
theorem tcp_constructor_flags :
    ∀ (sip dip : pnet.Ipv4Addr) (sp dp seq ack win : Nat),
      ((Tcp.new_ack_syn sip dip sp dp seq ack win).is_ack = true ∧
       (Tcp.new_ack_syn sip dip sp dp seq ack win).is_syn = true ∧
       (Tcp.new_ack_syn sip dip sp dp seq ack win).is_rst = false) ∧
      ((Tcp.new_rst sip dip sp dp seq ack win).is_rst = true ∧
       (Tcp.new_rst sip dip sp dp seq ack win).is_ack = false) ∧
      ((Tcp.new_ack_rst sip dip sp dp seq ack win).is_rst = true ∧
       (Tcp.new_ack_rst sip dip sp dp seq ack win).is_ack = true) ∧
      ((Tcp.new_ack_fin sip dip sp dp seq ack win).is_ack = true ∧
       (Tcp.new_ack_fin sip dip sp dp seq ack win).is_fin = true) := by
  intro sip dip sp dp seq ack win
  refine ⟨⟨?_, ?_, ?_⟩, ⟨?_, ?_⟩, ⟨?_, ?_⟩, ⟨?_, ?_⟩⟩ <;>
    simp only [Tcp.new_ack_syn, Tcp.new_ack, Tcp.new_rst, Tcp.new_ack_rst, Tcp.new_ack_fin,
      Tcp.is_ack, Tcp.is_syn, Tcp.is_rst, Tcp.is_fin] <;> decide

/-- Claim C8: serialize_with_payload on the IPv4 layer ignores the
payload argument and behaves identically to serialize — same buffer
writes, same result. -/
theorem ipv4_serialize_with_payload_ignores_payload :
    ∀ (v : Ipv4) (buffer : Buf) (payload : List Nat) (n : Nat),
      Ipv4.serialize_with_payload v buffer payload n = Ipv4.serialize v buffer n := by
  intro v buffer payload n
  rfl

/-- Claim C10: defrag changes only the fragmentation flags, the
fragment offset and the checksum (all zeroed) and empties the payload
field; every other field — version, header length, DSCP, ECN, total
length (kept, not recomputed), identification, TTL, upper protocol,
addresses and option records — is copied unchanged. -/
theorem defrag_frame_effect :
    ∀ x : Ipv4, (Ipv4.defrag x).layer =
      { x.layer with flags := 0, fragment_offset := 0, checksum := 0, payload := [] } := by
  intro x
  rfl

/-- Claim C7: is_fragment holds exactly when the more-fragments flag is
set or the offset is positive; new_more_fragment always sets the flag
together with the given offset; new_last_fragment never sets the flag;
defrag always yields a non-fragment while preserving identification,
addresses, upper protocol and TTL. -/
theorem fragment_predicates :
    (∀ v : Ipv4, v.is_fragment = true ↔
       (v.layer.flags &&& pnet.Ipv4Flags.MoreFragments ≠ 0 ∨ 0 < v.layer.fragment_offset)) ∧
    (∀ (idn : Nat) (t : LayerType) (off : Nat) (src dst : pnet.Ipv4Addr) (v : Ipv4),
       Ipv4.new_more_fragment idn t off src dst = some v →
       v.is_more_fragment = true ∧ v.get_fragment_offset = off) ∧
    (∀ (idn : Nat) (t : LayerType) (off : Nat) (src dst : pnet.Ipv4Addr) (v : Ipv4),
       Ipv4.new_last_fragment idn t off src dst = some v →
       v.is_more_fragment = false ∧ v.get_fragment_offset = off) ∧
    (∀ x : Ipv4, (Ipv4.defrag x).is_fragment = false ∧
       (Ipv4.defrag x).get_identification = x.get_identification ∧
       (Ipv4.defrag x).get_src = x.get_src ∧
       (Ipv4.defrag x).get_dst = x.get_dst ∧
       (Ipv4.defrag x).layer.next_level_protocol = x.layer.next_level_protocol ∧
       (Ipv4.defrag x).layer.ttl = x.layer.ttl) := by
  refine ⟨?_, ?_, ?_, ?_⟩
  · intro v
    simp [Ipv4.is_fragment, Ipv4.is_more_fragment, Ipv4.get_fragment_offset, ne_eq]
  · intro idn t off src dst v h
    cases t <;> simp [Ipv4.new_more_fragment, Ipv4.new] at h <;>
      simp [← h, Ipv4.is_more_fragment, Ipv4.get_fragment_offset, pnet.Ipv4Flags.MoreFragments]
  · intro idn t off src dst v h
    cases t <;> simp [Ipv4.new_last_fragment, Ipv4.new] at h <;>
      simp [← h, Ipv4.is_more_fragment, Ipv4.get_fragment_offset]
  · intro x
    refine ⟨?_, rfl, rfl, rfl, rfl, rfl⟩
    simp [Ipv4.defrag, Ipv4.is_fragment, Ipv4.is_more_fragment, Ipv4.get_fragment_offset,
      pnet.Ipv4Flags.MoreFragments]

/-- Witness for claim C7 at the concrete fragments built with offsets 2
and 3 over concrete addresses. -/
theorem fragment_predicates_witness :
    (c7mval.is_more_fragment = true ∧ c7mval.get_fragment_offset = 2) ∧
    (c7lval.is_more_fragment = false ∧ c7lval.get_fragment_offset = 3) :=
  ⟨fragment_predicates.2.1 7 .Tcp 2 addrA addrB c7mval rfl,
   fragment_predicates.2.2.1 7 .Tcp 3 addrA addrB c7lval rfl⟩

/-- Claim C3 (amended): serialize returns the buffer-too-small failure
exactly when the destination buffer is below the fixed 20-byte minimum
header size — not below get_size(); for option-free values with empty
payload the two coincide, so a buffer one byte short of get_size()
does fail as claimed, but option-carrying values are not protected by
the check. -/
theorem buffer_too_small_iff :
    (∀ (v : Ipv4) (buffer : Buf) (n : Nat),
       Ipv4.serialize v buffer n = .error .bufferTooSmall ↔ buffer.len < 20) ∧
    (∀ (v : Ipv4) (buffer : Buf) (payload : List Nat) (n : Nat),
       Ipv4.serialize_with_payload v buffer payload n = .error .bufferTooSmall ↔ buffer.len < 20) ∧
    (∀ (t : Tcp) (buffer : Buf) (n : Nat),
       Tcp.serialize t buffer n = .error .bufferTooSmall ↔ buffer.len < 20) ∧
    (∀ (t : Tcp) (buffer : Buf) (payload : List Nat) (n : Nat),
       Tcp.serialize_with_payload t buffer payload n = .error .bufferTooSmall ↔ buffer.len < 20) := by
  have hipv4 : ∀ (v : Ipv4) (buffer : Buf) (n : Nat),
      Ipv4.serialize v buffer n = .error .bufferTooSmall ↔ buffer.len < 20 := by
    intro v buffer n
    simp only [Ipv4.serialize, pnet.Ipv4Packet.minimum_packet_size]
    by_cases h : buffer.len < 20
    · simp [h]
    · rw [if_neg h]
      cases hp : pnet.Ipv4Packet.populate v.layer buffer with
      | none => simp [h]
      | some b =>
          simp only []
          split
          · simp [h]
          · split
            · simp [h]
            · simp [h]
  have htcp : ∀ (t : Tcp) (buffer : Buf) (n : Nat),
      Tcp.serialize t buffer n = .error .bufferTooSmall ↔ buffer.len < 20 := by
    intro t buffer n
    simp only [Tcp.serialize, pnet.TcpPacket.minimum_packet_size]
    by_cases h : buffer.len < 20
    · simp [h]
    · rw [if_neg h]
      cases hp : pnet.TcpPacket.populate t.layer buffer with
      | none => simp [h]
      | some b =>
          simp only []
          split
          · simp [h]
          · simp [h]
  refine ⟨hipv4, ?_, htcp, ?_⟩
  · intro v buffer payload n
    exact hipv4 v buffer n
  · intro t buffer payload n
    simp only [Tcp.serialize_with_payload, pnet.TcpPacket.minimum_packet_size]
    by_cases h : buffer.len < 20
    · simp [h]
    · rw [if_neg h]
      cases hp : pnet.TcpPacket.populate t.layer buffer with
      | none => simp [h]
      | some b =>
          simp only []
          cases hq : pnet.TcpPacket.set_payload payload b with
          | none => simp [h]
          | some b2 =>
              simp only []
              split
              · simp [h]
              · simp [h]

/-- Witness for claim C3: the bidirectional characterization applied to
a concrete value and a 19-byte buffer. -/
theorem buffer_too_small_iff_witness :
    Ipv4.serialize ipv4Base (zbuf 19) 20 = .error .bufferTooSmall ↔ (zbuf 19).len < 20 :=
  buffer_too_small_iff.1 ipv4Base (zbuf 19) 20

/-- Counterexample to claim C3 as stated: a value carrying one NOP
option record has get_size() = 21, yet serializing it into a 20-byte
buffer — one byte shorter than get_size() — does not return the
buffer-too-small failure; the call aborts inside the pnet option
writer instead. -/
theorem buffer_too_small_counterexample :
    Ipv4.get_size c3val = 21 ∧ (zbuf 20).len = Ipv4.get_size c3val - 1 ∧
    Ipv4.serialize c3val (zbuf 20) 21 = .error .panicked ∧
    SerErr.panicked ≠ SerErr.bufferTooSmall :=
  ⟨rfl, rfl, rfl, by decide⟩

/-- Claim C4 (amended): serialize returns the protocol-specific
header-too-large failure only when get_size() / 4 exceeds 255 (the
range of the u8 cast in the source), not when it exceeds the 4-bit
wire field bound 15. -/
theorem header_too_large_threshold :
    (∀ (v : Ipv4) (buffer : Buf) (n : Nat), v.get_size / 4 ≤ 255 →
       Ipv4.serialize v buffer n ≠ .error .ipv4TooBig) ∧
    (∀ (t : Tcp) (buffer : Buf) (n : Nat), t.get_size / 4 ≤ 255 →
       Tcp.serialize t buffer n ≠ .error .tcpTooBig) ∧
    (∀ (t : Tcp) (buffer : Buf) (payload : List Nat) (n : Nat), t.get_size / 4 ≤ 255 →
       Tcp.serialize_with_payload t buffer payload n ≠ .error .tcpTooBig) := by
  refine ⟨?_, ?_, ?_⟩
  · intro v buffer n hle hc
    simp only [Ipv4.serialize, pnet.Ipv4Packet.minimum_packet_size] at hc
    split at hc
    · simp at hc
    · split at hc
      · simp at hc
      · split at hc
        · omega
        · split at hc
          · simp at hc
          · simp at hc
  · intro t buffer n hle hc
    simp only [Tcp.serialize, pnet.TcpPacket.minimum_packet_size] at hc
    split at hc
    · simp at hc
    · split at hc
      · simp at hc
      · split at hc
        · omega
        · simp at hc
  · intro t buffer payload n hle hc
    simp only [Tcp.serialize_with_payload, pnet.TcpPacket.minimum_packet_size] at hc
    split at hc
    · simp at hc
    · split at hc
      · simp at hc
      · split at hc
        · simp at hc
        · split at hc
          · omega
          · simp at hc

/-- Witness for claim C4: the threshold lemma applied to the concrete
20-byte header, whose get_size() / 4 = 5 stays within the cast. -/
theorem header_too_large_threshold_witness :
    Ipv4.serialize ipv4Base (zbuf 20) 20 ≠ .error .ipv4TooBig :=
  header_too_large_threshold.1 ipv4Base (zbuf 20) 20 (by decide)

/-- Counterexample to claim C4 as stated: a value whose encoded size 64
needs a header-length-in-words of 16 — beyond the 4-bit wire field —
serializes successfully, returning 64 and writing the length nibble
truncated to 0 instead of failing with the header-too-large error. -/
theorem header_too_large_counterexample :
    Ipv4.get_size c4val / 4 = 16 ∧ 15 < Ipv4.get_size c4val / 4 ∧
    (Ipv4.serialize c4val (zbuf 64) 64).isOk = true ∧
    (match Ipv4.serialize c4val (zbuf 64) 64 with
     | .ok p => p.2
     | .error _ => 0) = 64 ∧
    (match Ipv4.serialize c4val (zbuf 64) 64 with
     | .ok p => rd p.1 0 % 16
     | .error _ => 99) = 0 :=
  ⟨rfl, by decide, rfl, rfl, rfl⟩

/-- Claim C5 (amended): a successful serialize_with_payload on the TCP
layer returns the header byte count plus the caller-supplied
total-length argument n — which equals the copied payload byte count
only when the caller passes n = payload length. -/
theorem serialize_with_payload_return_count :
    ∀ (t : Tcp) (buffer : Buf) (payload : List Nat) (n : Nat) (out : Buf) (k : Nat),
      Tcp.serialize_with_payload t buffer payload n = .ok (out, k) → k = t.get_size + n := by
  intro t buffer payload n out k h
  simp only [Tcp.serialize_with_payload, pnet.TcpPacket.minimum_packet_size] at h
  split at h
  · simp at h
  · split at h
    · simp at h
    · split at h
      · simp at h
      · split at h
        · simp at h
        · simp only [Except.ok.injEq, Prod.mk.injEq] at h
          omega

/-- Witness for claim C5 at the concrete SYN-ACK segment, a 3-byte
payload and total-length argument 7. -/
theorem serialize_with_payload_return_count_witness : c5k = Tcp.get_size tcpAckSyn + 7 :=
  serialize_with_payload_return_count tcpAckSyn (zbuf 40) [1, 2, 3] 7 c5out c5k rfl

/-- Counterexample to claim C5 as stated: with a 3-byte payload and
total-length argument 7 the call succeeds and returns 27 = 20 + 7,
not the header byte count plus the copied payload length 23. -/
theorem payload_return_counterexample :
    (match Tcp.serialize_with_payload tcpAckSyn (zbuf 40) [1, 2, 3] 7 with
     | .ok p => p.2
     | .error _ => 0) = 27 ∧
    Tcp.get_size tcpAckSyn + ([1, 2, 3] : List Nat).length = 23 ∧ (27 : Nat) ≠ 23 :=
  ⟨rfl, rfl, by decide⟩

/-- Claim C9 (amended): the Display rendering appends the fragment
clause exactly when is_fragment() holds, and the byte offset it shows
is the stored 8-byte unit times 8 reduced modulo 2^16 (the u16
multiplication of the source wraps); the shown value equals exactly 8
times the stored unit whenever the stored offset is below 8192, which
covers the whole 13-bit wire range. -/
theorem display_fragment_clause :
    ∀ v : Ipv4,
      (v.is_fragment = true →
        v.display = layerTypeName .Ipv4 ++ ": " ++ v.layer.source.display ++ " -> " ++
          v.layer.destination.display ++ ", Length = " ++ toString v.layer.total_length ++
          (", Fragment = " ++ toString (v.get_fragment_offset * 8 % 65536))) ∧
      (v.is_fragment = false →
        v.display = layerTypeName .Ipv4 ++ ": " ++ v.layer.source.display ++ " -> " ++
          v.layer.destination.display ++ ", Length = " ++ toString v.layer.total_length) ∧
      (v.get_fragment_offset < 8192 →
        v.get_fragment_offset * 8 % 65536 = 8 * v.get_fragment_offset) := by
  intro v
  refine ⟨?_, ?_, ?_⟩
  · intro hf
    simp [Ipv4.display, hf, String.append_assoc]
  · intro hf
    simp [Ipv4.display, hf, String.append_empty]
  · intro h
    omega

/-- Witness for claim C9 at the concrete fragment with stored offset 2:
the clause is appended and shows 16 bytes. -/
theorem display_fragment_clause_witness :
    c7mval.display = layerTypeName .Ipv4 ++ ": " ++ c7mval.layer.source.display ++ " -> " ++
      c7mval.layer.destination.display ++ ", Length = " ++ toString c7mval.layer.total_length ++
      (", Fragment = " ++ toString (c7mval.get_fragment_offset * 8 % 65536)) ∧
    c7mval.get_fragment_offset * 8 % 65536 = 8 * c7mval.get_fragment_offset :=
  ⟨(display_fragment_clause c7mval).1 (by decide),
   (display_fragment_clause c7mval).2.2 (by decide)⟩

/-- Counterexample to claim C9 as stated: the fragment built by
new_more_fragment with the 16-bit offset 8192 renders its byte offset
as 0, not as 8 * 8192 = 65536 — the u16 multiplication wrapped. -/
theorem display_fragment_counterexample :
    c9val.get_fragment_offset = 8192 ∧
    c9val.display = "IPv4: 10.0.0.1 -> 10.0.0.2, Length = 0, Fragment = 0" ∧
    c9val.get_fragment_offset * 8 % 65536 ≠ 8 * c9val.get_fragment_offset :=
  ⟨rfl, by decide, by decide⟩

theorem addr_ext (a b : pnet.Ipv4Addr) (h0 : a.o0 = b.o0) (h1 : a.o1 = b.o1)
    (h2 : a.o2 = b.o2) (h3 : a.o3 = b.o3) : a = b := by
  cases a; cases b; simp_all

/-- Claim C1 (amended): for option-free layer values whose stored
fields fit the wire widths of the compared fields — for IPv4 flags
below 8 (u8 storage over a 3-bit wire field), for TCP flags below 512
(u16 storage over the 9-bit u9be wire field including NS) — every
successful serialize followed by a parse of the written bytes
reproduces the semantic fields: identification, flags, TTL, protocol
and both addresses for IPv4; ports, sequence, acknowledgement, window
and flags for TCP.  Header length, total length as written, and
checksum are recomputed and excluded. -/
theorem roundtrip_semantic_fields :
    (∀ (v : Ipv4) (buffer : Buf) (n : Nat) (out : Buf) (k : Nat),
       v.layer.options = [] → v.layer.flags < 8 → v.wf →
       Ipv4.serialize v buffer n = .ok (out, k) →
       (Ipv4.parse out).layer.identification = v.layer.identification ∧
       (Ipv4.parse out).layer.flags = v.layer.flags ∧
       (Ipv4.parse out).layer.ttl = v.layer.ttl ∧
       (Ipv4.parse out).layer.next_level_protocol = v.layer.next_level_protocol ∧
       (Ipv4.parse out).layer.source = v.layer.source ∧
       (Ipv4.parse out).layer.destination = v.layer.destination) ∧
    (∀ (t : Tcp) (buffer : Buf) (n : Nat) (out : Buf) (k : Nat) (sa da : pnet.Ipv4Addr),
       t.layer.options = [] → t.layer.flags < 512 → t.wf →
       Tcp.serialize t buffer n = .ok (out, k) →
       (Tcp.parse out sa da).layer.source = t.layer.source ∧
       (Tcp.parse out sa da).layer.destination = t.layer.destination ∧
       (Tcp.parse out sa da).layer.sequence = t.layer.sequence ∧
       (Tcp.parse out sa da).layer.acknowledgement = t.layer.acknowledgement ∧
       (Tcp.parse out sa da).layer.window = t.layer.window ∧
       (Tcp.parse out sa da).layer.flags = t.layer.flags) := by
  constructor
  · intro v buffer n out k hopt hfl hwf h
    obtain ⟨hver, hhl, hdscp, hecn, htl, hid, hflags, hfo, httl, hproto, hck,
      hsrcwf, hdstwf, hoptw, hpayw⟩ := hwf
    simp only [Ipv4.serialize, pnet.Ipv4Packet.minimum_packet_size] at h
    split at h
    · simp at h
    · cases hp : pnet.Ipv4Packet.populate v.layer buffer with
      | none => rw [hp] at h; simp at h
      | some b =>
          rw [hp] at h
          simp only [] at h
          split at h
          · simp at h
          · split at h
            · simp at h
            · simp only [Except.ok.injEq, Prod.mk.injEq] at h
              obtain ⟨hout, hk⟩ := h
              subst hout
              unfold pnet.Ipv4Packet.populate at hp
              rw [hopt] at hp
              simp only [pnet.Ipv4Packet.set_options, pnet.Ipv4Packet.setOptionsGo,
                pnet.Ipv4Packet.set_payload] at hp
              split at hp
              · simp at hp
              · split at hp
                · simp at hp
                · simp only [Option.some.injEq] at hp
                  subst hp
                  obtain ⟨hs0, hs1, hs2, hs3⟩ := hsrcwf
                  obtain ⟨hd0, hd1, hd2, hd3⟩ := hdstwf
                  refine ⟨?_, ?_, ?_, ?_, ?_, ?_⟩ <;>
                    simp [Ipv4.parse, pnet.Ipv4Packet.get_identification,
                      pnet.Ipv4Packet.get_flags, pnet.Ipv4Packet.get_ttl,
                      pnet.Ipv4Packet.get_next_level_protocol, pnet.Ipv4Packet.get_source,
                      pnet.Ipv4Packet.get_destination, pnet.Ipv4Packet.set_checksum,
                      pnet.Ipv4Packet.set_total_length, pnet.Ipv4Packet.set_header_length,
                      pnet.Ipv4Packet.set_version, pnet.Ipv4Packet.set_dscp,
                      pnet.Ipv4Packet.set_ecn, pnet.Ipv4Packet.set_identification,
                      pnet.Ipv4Packet.set_flags, pnet.Ipv4Packet.set_fragment_offset,
                      pnet.Ipv4Packet.set_ttl, pnet.Ipv4Packet.set_next_level_protocol,
                      pnet.Ipv4Packet.set_source, pnet.Ipv4Packet.set_destination,
                      rd_wr, rd_copyAt_20]
                  · omega
                  · omega
                  · omega
                  · omega
                  · refine addr_ext _ _ ?_ ?_ ?_ ?_ <;> simp only [] <;> omega
                  · refine addr_ext _ _ ?_ ?_ ?_ ?_ <;> simp only [] <;> omega
  · intro t buffer n out k sa da hopt hfl hwf h
    obtain ⟨hsp, hdp, hseq, hack, hdo, hres, hflags, hwin, hck, hup,
      hoptw, hpayw, hsawf, hdawf⟩ := hwf
    simp only [Tcp.serialize, pnet.TcpPacket.minimum_packet_size] at h
    split at h
    · simp at h
    · cases hp : pnet.TcpPacket.populate t.layer buffer with
      | none => rw [hp] at h; simp at h
      | some b =>
          rw [hp] at h
          simp only [] at h
          split at h
          · simp at h
          · simp only [Except.ok.injEq, Prod.mk.injEq] at h
            obtain ⟨hout, hk⟩ := h
            subst hout
            unfold pnet.TcpPacket.populate at hp
            rw [hopt] at hp
            simp only [pnet.TcpPacket.set_options, pnet.TcpPacket.setOptionsGo,
              pnet.TcpPacket.set_payload] at hp
            split at hp
            · simp at hp
            · simp only [Option.some.injEq] at hp
              subst hp
              refine ⟨?_, ?_, ?_, ?_, ?_, ?_⟩ <;>
                simp [Tcp.parse, pnet.TcpPacket.get_source,
                  pnet.TcpPacket.get_destination, pnet.TcpPacket.get_sequence,
                  pnet.TcpPacket.get_acknowledgement, pnet.TcpPacket.get_window,
                  pnet.TcpPacket.get_flags, pnet.TcpPacket.set_checksum,
                  pnet.TcpPacket.set_data_offset, pnet.TcpPacket.set_source,
                  pnet.TcpPacket.set_destination, pnet.TcpPacket.set_sequence,
                  pnet.TcpPacket.set_acknowledgement, pnet.TcpPacket.set_reserved,
                  pnet.TcpPacket.set_flags, pnet.TcpPacket.set_window,
                  pnet.TcpPacket.set_urgent_ptr, rd_wr, rd_copyAt_20] <;>
                omega

/-- Witness for claim C1: the round trip applied to the concrete
option-free header (identification 1, TCP, 10.0.0.1 -> 10.0.0.2)
serialized into a 20-byte buffer, and to the concrete SYN-ACK segment. -/
theorem roundtrip_semantic_fields_witness :
    (Ipv4.parse c1out).layer.identification = ipv4Base.layer.identification ∧
    (Tcp.parse c1tcpOut addrA addrB).layer.source = tcpAckSyn.layer.source := by
  constructor
  · exact (roundtrip_semantic_fields.1 ipv4Base (zbuf 20) 20 c1out c1k rfl (by decide)
      (by decide) rfl).1
  · exact (roundtrip_semantic_fields.2 tcpAckSyn (zbuf 20) 0 c1tcpOut c1tcpK addrA addrB rfl
      (by decide) (by decide) rfl).1

/-- Counterexample to claim C1 as stated: an option-free value whose
stored flags byte is 8 — representable in the u8 storage field but not
in the 3-bit wire field — serializes successfully, and parsing the
written bytes yields flags 0, not 8. -/
theorem roundtrip_flags_counterexample :
    c1flags8val.layer.options = [] ∧ c1flags8val.layer.flags = 8 ∧
    (match Ipv4.serialize c1flags8val (zbuf 20) 20 with
     | .ok p => (Ipv4.parse p.1).layer.flags
     | .error _ => 99) = 0 ∧ (0 : Nat) ≠ 8 :=
  ⟨rfl, rfl, rfl, by decide⟩

theorem buf_ext (x y : Buf) (h : ∀ j, x.data j = y.data j) (hl : x.len = y.len) : x = y := by
  cases x
  cases y
  simp only [Buf.mk.injEq]
  exact ⟨funext h, hl⟩

theorem data_wr_low_high (b : Buf) (i v j : Nat) (h1 : i < 20) (h2 : 20 ≤ j) :
    (wr b i v).data j = b.data j := by
  show rd (wr b i v) j = rd b j
  simp only [rd_wr]
  exact if_neg (by omega)

theorem sumWords_congr (b b2 : Buf) (skip : Nat) :
    ∀ n, (∀ j, j < 2 * n → rd b j = rd b2 j) →
      pnet.sumWords b skip n = pnet.sumWords b2 skip n := by
  intro n
  induction n with
  | zero => intro _; rfl
  | succ m ih =>
      intro hb
      simp only [pnet.sumWords]
      rw [ih (fun j hj => hb j (by omega)), hb (2 * m) (by omega), hb (2 * m + 1) (by omega)]

theorem tcp_populate_no_options (l : pnet.Tcp) (b : Buf) (hopt : l.options = [])
    (hpay : l.payload = []) (hdoff : l.data_offset % 16 ≤ 5) (hlen : b.len = 20) :
    pnet.TcpPacket.populate l b = some (tcpPopBuf l b) := by
  unfold pnet.TcpPacket.populate
  rw [hopt, hpay]
  simp only [pnet.TcpPacket.set_options, pnet.TcpPacket.setOptionsGo]
  unfold pnet.TcpPacket.set_payload
  rw [if_neg ?hco]
  case hco =>
    simp [pnet.TcpPacket.set_urgent_ptr, pnet.TcpPacket.set_checksum,
      pnet.TcpPacket.set_window, pnet.TcpPacket.set_flags, pnet.TcpPacket.set_reserved,
      pnet.TcpPacket.set_data_offset, pnet.TcpPacket.set_acknowledgement,
      pnet.TcpPacket.set_sequence, pnet.TcpPacket.set_destination,
      pnet.TcpPacket.set_source, rd_wr, hlen]
    omega
  simp only [copyAt]
  congr 1
  apply buf_ext
  · intro j
    by_cases hj : j < 20
    · show rd _ j = rd (tcpPopBuf l b) j
      have : rd (tcpPopBuf l b) j = tcpPopByte l j := by
        simp [tcpPopBuf, rd, hj]
      rw [this]
      interval_cases j <;>
        simp [pnet.TcpPacket.set_urgent_ptr, pnet.TcpPacket.set_checksum,
          pnet.TcpPacket.set_window, pnet.TcpPacket.set_flags, pnet.TcpPacket.set_reserved,
          pnet.TcpPacket.set_data_offset, pnet.TcpPacket.set_acknowledgement,
          pnet.TcpPacket.set_sequence, pnet.TcpPacket.set_destination,
          pnet.TcpPacket.set_source, rd_wr, tcpPopByte] <;> omega
    · show rd _ j = rd (tcpPopBuf l b) j
      have h2 : 20 ≤ j := by omega
      have : rd (tcpPopBuf l b) j = b.data j := by
        simp [tcpPopBuf, rd, hj]
      rw [this]
      simp only [pnet.TcpPacket.set_urgent_ptr, pnet.TcpPacket.set_checksum,
        pnet.TcpPacket.set_window, pnet.TcpPacket.set_flags, pnet.TcpPacket.set_reserved,
        pnet.TcpPacket.set_data_offset, pnet.TcpPacket.set_acknowledgement,
        pnet.TcpPacket.set_sequence, pnet.TcpPacket.set_destination,
        pnet.TcpPacket.set_source]
      simp only [wr, rd]
      repeat rw [if_neg (by omega)]
  · simp [tcpPopBuf, pnet.TcpPacket.set_urgent_ptr, pnet.TcpPacket.set_checksum,
      pnet.TcpPacket.set_window, pnet.TcpPacket.set_flags, pnet.TcpPacket.set_reserved,
      pnet.TcpPacket.set_data_offset, pnet.TcpPacket.set_acknowledgement,
      pnet.TcpPacket.set_sequence, pnet.TcpPacket.set_destination,
      pnet.TcpPacket.set_source]

theorem rd_tcpPopBuf (l : pnet.Tcp) (b : Buf) (j : Nat) :
    rd (tcpPopBuf l b) j = if j < 20 then tcpPopByte l j else b.data j := rfl

/-- Claim C6 (amended): pnet computes the TCP checksum over the whole
destination buffer, so the written checksum does depend on the buffer
length and on bytes beyond the header when the buffer is oversized;
for a buffer of exactly get_size() bytes (here an option-free,
payload-free value, data offset at most 5, so get_size() = 20) the
written checksum equals the checksum over the pseudo-header (source,
destination, protocol 6, segment length 20) concatenated with the 20
written header bytes with zero payload — independent of the initial
buffer contents and of the ignored total-length argument. -/
theorem tcp_checksum_exact_buffer :
    ∀ (t : Tcp) (buffer : Buf) (n : Nat),
      t.layer.options = [] → t.layer.payload = [] → t.layer.data_offset % 16 ≤ 5 →
      buffer.len = 20 →
      ∃ out, Tcp.serialize t buffer n = .ok (out, 20) ∧ out.len = 20 ∧
        rd out 16 = tcpChecksumNoPayload t / 256 % 256 ∧
        rd out 17 = tcpChecksumNoPayload t % 256 ∧
        (∀ j, j < 20 → j ≠ 16 → j ≠ 17 → rd out j = tcpPreByte t j) := by
  intro t buffer n hopt hpay hdoff hlen
  have hsz : t.get_size = 20 := by
    simp [Tcp.get_size, pnet.TcpPacket.packet_size, hopt, hpay]
  have hpop := tcp_populate_no_options t.layer buffer hopt hpay hdoff hlen
  have hBytes : ∀ j, j < 20 →
      rd (pnet.TcpPacket.set_data_offset (20 / 4 % 256) (tcpPopBuf t.layer buffer)) j
        = tcpPreByte t j := by
    intro j hj
    interval_cases j <;>
      (simp [pnet.TcpPacket.set_data_offset, rd_wr, rd_tcpPopBuf, tcpPopByte, tcpPreByte]; try omega)
  have hlenFix :
      (pnet.TcpPacket.set_data_offset (20 / 4 % 256) (tcpPopBuf t.layer buffer)).len = 20 := by
    simp [pnet.TcpPacket.set_data_offset, tcpPopBuf, hlen]
  have hC : pnet.TcpPacket.ipv4_checksum
      (pnet.TcpPacket.set_data_offset (20 / 4 % 256) (tcpPopBuf t.layer buffer))
      t.get_src_ip_addr t.get_dst_ip_addr = tcpChecksumNoPayload t := by
    unfold tcpChecksumNoPayload pnet.TcpPacket.ipv4_checksum pnet.utilIpv4Checksum
    have h10 : pnet.sumWords
        (pnet.TcpPacket.set_data_offset (20 / 4 % 256) (tcpPopBuf t.layer buffer)) 8 10 =
        pnet.sumWords (tcpHeaderBuf t) 8 10 :=
      sumWords_congr _ _ 8 10 (fun j hj => by rw [hBytes j (by omega)]; rfl)
    have hs : pnet.sumBeWords
        (pnet.TcpPacket.set_data_offset (20 / 4 % 256) (tcpPopBuf t.layer buffer)) 8 =
        pnet.sumBeWords (tcpHeaderBuf t) 8 := by
      unfold pnet.sumBeWords
      rw [hlenFix]
      simp [tcpHeaderBuf, h10]
    rw [hs, hlenFix]
    simp [Tcp.get_src_ip_addr, Tcp.get_dst_ip_addr, tcpHeaderBuf]
  have hser : Tcp.serialize t buffer n =
      .ok (pnet.TcpPacket.set_checksum
            (pnet.TcpPacket.ipv4_checksum
              (pnet.TcpPacket.set_data_offset (20 / 4 % 256) (tcpPopBuf t.layer buffer))
              t.get_src_ip_addr t.get_dst_ip_addr)
            (pnet.TcpPacket.set_data_offset (20 / 4 % 256) (tcpPopBuf t.layer buffer)),
          20) := by
    unfold Tcp.serialize
    rw [if_neg (by simp only [pnet.TcpPacket.minimum_packet_size]; omega), hpop]
    simp only []
    rw [if_neg (by omega)]
    rw [hsz]
  refine ⟨_, hser, ?_, ?_, ?_, ?_⟩
  · simp [pnet.TcpPacket.set_checksum, hlenFix]
  · simp [pnet.TcpPacket.set_checksum, rd_wr, hC]
  · simp [pnet.TcpPacket.set_checksum, rd_wr, hC]
  · intro j hj h16 h17
    rw [← hBytes j hj]
    simp [pnet.TcpPacket.set_checksum, rd_wr, h16, h17]

/-- Witness for claim C6: the exact-buffer checksum characterization at
the concrete SYN-ACK segment and a zeroed 20-byte buffer. -/
theorem tcp_checksum_exact_buffer_witness :
    ∃ out, Tcp.serialize tcpAckSyn (zbuf 20) 0 = .ok (out, 20) ∧ out.len = 20 ∧
      rd out 16 = tcpChecksumNoPayload tcpAckSyn / 256 % 256 ∧
      rd out 17 = tcpChecksumNoPayload tcpAckSyn % 256 ∧
      (∀ j, j < 20 → j ≠ 16 → j ≠ 17 → rd out j = tcpPreByte tcpAckSyn j) :=
  tcp_checksum_exact_buffer tcpAckSyn (zbuf 20) 0 rfl rfl (by decide) rfl

/-- Counterexample to claim C6 as stated: serializing the same segment
into a zeroed 20-byte buffer and into a zeroed 22-byte buffer writes
different checksums — the extra buffer length (and any bytes beyond
the header) enters the pseudo-header length and the summed words. -/
theorem tcp_checksum_counterexample :
    (match Tcp.serialize tcpAckSyn (zbuf 20) 0 with
     | .ok p => rd p.1 16 * 256 + rd p.1 17
     | .error _ => 0) = 37574 ∧
    (match Tcp.serialize tcpAckSyn (zbuf 22) 0 with
     | .ok p => rd p.1 16 * 256 + rd p.1 17
     | .error _ => 0) = 37572 ∧
    (37574 : Nat) ≠ 37572 :=
  ⟨rfl, rfl, by decide⟩
